import Mathlib

/-!
Verification of the podcaster-ai-automation repository.

This file embeds the parts of the repository that the checked properties
talk about:

* the generated API client (`app/src/lib/api/services/DefaultService.ts`),
  embedded as the list of (method, url) pairs its callables issue;
* the script parser's body-line rules and the story-item retrieval used at
  export time (the backend Python sources are not in the snapshot; these are
  modelled from the specification, as marked on each definition);
* the web front-end hooks (`usePodcasts.ts` and the SSE-enabled variant of
  `usePodcastProject`) and the `PodcastsTab` components, embedded as pure
  state-transition functions;
* the bootstrap script `setup_linux.sh`, embedded as an ordered step list
  run under errexit semantics.
-/

namespace Voicebox

/-- An HTTP route: request method plus URL template, exactly as written in
the client / specification. -/
structure Route where
  method : String
  path : String
deriving DecidableEq, Repr

/-- The fourteen callables of `DefaultService`
(`app/src/lib/api/services/DefaultService.ts`), in source order.  Each static
method performs one request with a fixed method and URL template; this list
records those (method, url) pairs. -/
def defaultServiceRoutes : List Route :=
  [ ⟨"GET", "/"⟩
  , ⟨"POST", "/shutdown"⟩
  , ⟨"GET", "/health"⟩
  , ⟨"GET", "/server/mode"⟩
  , ⟨"GET", "/podcast/projects"⟩
  , ⟨"POST", "/podcast/projects"⟩
  , ⟨"GET", "/podcast/projects/{project_id}"⟩
  , ⟨"PUT", "/podcast/projects/{project_id}"⟩
  , ⟨"DELETE", "/podcast/projects/{project_id}"⟩
  , ⟨"PUT", "/podcast/projects/{project_id}/segments/{segment_id}"⟩
  , ⟨"POST", "/podcast/projects/{project_id}/start"⟩
  , ⟨"POST", "/podcast/projects/{project_id}/pause"⟩
  , ⟨"GET", "/podcast/projects/{project_id}/progress"⟩
  , ⟨"POST", "/podcast/projects/{project_id}/export"⟩ ]

/-- The HTTP surface as the specification's route table (§6) states it,
written from the spec's words for comparison with the client.  Path
placeholder names are normalized to the client's spelling (the spec writes
`{id}`/`{sid}` for the podcast routes; placeholders are binding positions,
not part of the route identity). -/
def httpSurfaceRoutes : List Route :=
  [ ⟨"GET", "/"⟩
  , ⟨"POST", "/shutdown"⟩
  , ⟨"GET", "/health"⟩
  , ⟨"GET", "/server/mode"⟩
  , ⟨"GET", "/profiles"⟩
  , ⟨"POST", "/profiles"⟩
  , ⟨"POST", "/profiles/{id}/samples"⟩
  , ⟨"POST", "/profiles/{id}/generate"⟩
  , ⟨"GET", "/podcast/projects"⟩
  , ⟨"POST", "/podcast/projects"⟩
  , ⟨"GET", "/podcast/projects/{project_id}"⟩
  , ⟨"PUT", "/podcast/projects/{project_id}"⟩
  , ⟨"DELETE", "/podcast/projects/{project_id}"⟩
  , ⟨"PUT", "/podcast/projects/{project_id}/segments/{segment_id}"⟩
  , ⟨"POST", "/podcast/projects/{project_id}/start"⟩
  , ⟨"POST", "/podcast/projects/{project_id}/pause"⟩
  , ⟨"GET", "/podcast/projects/{project_id}/progress"⟩
  , ⟨"POST", "/podcast/projects/{project_id}/export"⟩ ]

/-- The four voice-profile routes of the HTTP surface (§6). -/
def profileRoutes : List Route :=
  [ ⟨"GET", "/profiles"⟩
  , ⟨"POST", "/profiles"⟩
  , ⟨"POST", "/profiles/{id}/samples"⟩
  , ⟨"POST", "/profiles/{id}/generate"⟩ ]

/-! ### Script parser and story timeline (modelled from the spec)

The backend Python sources (`backend/podcast.py`, `backend/stories.py`,
`backend/utils/podcast_audio.py`) are not part of the snapshot; only their
documentation is.  The definitions below are therefore modelled from the
specification, as their doc comments record. -/

/-- The kind of a parsed segment: a dialogue line or a marker. -/
inductive SegmentType
  | text
  | sound_effect
  | music_cue
deriving DecidableEq, Repr

/-- One parsed segment of a script body. -/
structure PodcastSegment where
  speaker : String
  text : String
  segment_type : SegmentType
  marker_value : String
deriving DecidableEq, Repr

/-- Modelled from the spec: the script parser's body-line rules (§4.5,
`backend/podcast.py` is missing from the snapshot).  A line matching
`[sound_effect: name]` or `[music_cue: name]` becomes a marker segment, a
line matching `speaker_id: text` becomes a text segment, and section headers
(`## ...`) and blank lines are ignored and produce nothing. -/
def parseLine (line : String) : Option PodcastSegment :=
  let t := line.trim
  if t.isEmpty then none
  else if t.startsWith "##" then none
  else if t.startsWith "[sound_effect:" && t.endsWith "]" then
    some { speaker := "", text := "", segment_type := .sound_effect,
           marker_value := ((t.drop 14).dropRight 1).trim }
  else if t.startsWith "[music_cue:" && t.endsWith "]" then
    some { speaker := "", text := "", segment_type := .music_cue,
           marker_value := ((t.drop 11).dropRight 1).trim }
  else
    match t.splitOn ":" with
    | [] => none
    | [_] => none
    | speaker :: rest =>
      if speaker.trim.isEmpty then none
      else some { speaker := speaker.trim,
                  text := (String.intercalate ":" rest).trim,
                  segment_type := .text, marker_value := "" }

/-- Modelled from the spec: parsing a script body returns the ordered list of
segments produced by the per-line rules, in document order (§4.5). -/
def parseScriptBody (lines : List String) : List PodcastSegment :=
  lines.filterMap parseLine

/-- Does this body line parse to a text segment? -/
def isTextSegLine (l : String) : Bool :=
  match parseLine l with
  | some s => s.segment_type == SegmentType.text
  | none => false

/-- Does this body line parse to a marker segment (sound effect or music cue)? -/
def isMarkerSegLine (l : String) : Bool :=
  match parseLine l with
  | some s => s.segment_type != SegmentType.text
  | none => false

/-- One persisted audio artifact (§3): only its identity matters here. -/
structure Generation where
  id : Nat
deriving DecidableEq, Repr

/-- One element of a Story's timeline (§3): either a reference to a
Generation (voice clip) or a marker with a null generation reference. -/
structure StoryItem where
  order : Nat
  generation_id : Option Nat
  marker : Option (SegmentType × String)
deriving DecidableEq, Repr

/-- The StoryItem the pipeline records for the segment at position `i`. -/
def itemOfSegment (i : Nat) (s : PodcastSegment) : StoryItem :=
  match s.segment_type with
  | .text => { order := i, generation_id := some i, marker := none }
  | k => { order := i, generation_id := none, marker := some (k, s.marker_value) }

/-- Modelled from the spec: a full successful pipeline run creates one
StoryItem per segment, sequentially — text segments reference the Generation
persisted for them, marker segments carry a null generation reference and are
recorded without invoking synthesis (§4.8). -/
def runPipelineItems (segs : List PodcastSegment) : List StoryItem :=
  segs.enum.map (fun p => itemOfSegment p.1 p.2)

/-- Modelled from the spec: the retrieval joining StoryItems to Generations
when assembling/exporting is an OUTER join (§3; the IMPROVEMENTS document
records the `.outerjoin` on `generation_id` in
`backend/utils/podcast_audio.py`), so every item is returned, paired with its
generation when it has one. -/
def retrieveTimelineOuter (items : List StoryItem) (gens : List Generation) :
    List (StoryItem × Option Generation) :=
  items.map (fun it => (it, gens.find? (fun g => some g.id == it.generation_id)))

/-- The INNER-join retrieval the spec warns against: items whose
`generation_id` has no matching Generation are dropped. -/
def retrieveTimelineInner (items : List StoryItem) (gens : List Generation) :
    List (StoryItem × Generation) :=
  items.filterMap
    (fun it => (gens.find? (fun g => some g.id == it.generation_id)).map (fun g => (it, g)))

/-! ### Web front-end data model and hooks -/

/-- A segment as the web client sees it (`app/src/lib/api/types.ts` usage in
the hooks and the editor). -/
structure SegmentView where
  id : String
  speaker : String
  text : String
  segment_order : Nat
  status : String
  profile_id : Option String
  model_size : String
  error_message : Option String
deriving DecidableEq, Repr

/-- A podcast project as the web client sees it. -/
structure PodcastProject where
  id : String
  name : String
  description : String
  script_content : String
  pipeline_state : String
  current_segment_index : Nat
  completed_count : Nat
  failed_count : Nat
  total_segments : Nat
  segments : List SegmentView
  updated_at : String
deriving DecidableEq, Repr

/-- The payload of a `progress` SSE event (`data.data` in
`usePodcastProject`'s `onmessage`). -/
structure ProgressData where
  pipeline_state : String
  current_segment_index : Nat
  completed_count : Nat
  failed_count : Nat
  total_segments : Nat
deriving DecidableEq, Repr

/-- The `progress` branch of the SSE `onmessage` handler (part_003 lines
185-196): `setProject({...project, pipeline_state, current_segment_index,
completed_count, failed_count, total_segments})`. -/
def applyProgressEvent (p : PodcastProject) (d : ProgressData) : PodcastProject :=
  { p with pipeline_state := d.pipeline_state
         , current_segment_index := d.current_segment_index
         , completed_count := d.completed_count
         , failed_count := d.failed_count
         , total_segments := d.total_segments }

/-- An SSE message `{type, data}` as `usePodcastProject` parses it. -/
inductive SSEEvent
  | progress (d : Option ProgressData)
  | segment_complete (d : Option ProgressData)
  | segment_failed (d : Option ProgressData)
  | complete (d : Option ProgressData)
  | error (msg : Option String)
deriving DecidableEq, Repr

/-- The slice of `usePodcastProject`'s state touched by the SSE handler. -/
structure HookState where
  project : Option PodcastProject
  isGenerating : Bool
  errorMsg : Option String
deriving DecidableEq, Repr

/-- The `onmessage` handler of the SSE effect (part_003 lines 181-211),
returning the updated hook state and whether `fetchProject()` was invoked:
`progress` merges the payload into the project (when both are present) and
does not re-fetch; `segment_complete`/`segment_failed` only re-fetch;
`complete` clears the generating flag and re-fetches; `error` clears the
generating flag, records the message and re-fetches. -/
def handleProgressMessage (s : HookState) (e : SSEEvent) : HookState × Bool :=
  match e with
  | .progress d =>
    match s.project, d with
    | some p, some data => ({ s with project := some (applyProgressEvent p data) }, false)
    | _, _ => (s, false)
  | .segment_complete _ => (s, true)
  | .segment_failed _ => (s, true)
  | .complete _ => ({ s with isGenerating := false }, true)
  | .error m =>
    ({ s with isGenerating := false, errorMsg := some (m.getD "Pipeline error") }, true)

/-! ### The SSE progress-stream subscription of `usePodcastProject`

The SSE-enabled variant of the hook (src/unnamed/part_003, lines 170-222)
opens an `EventSource` in a `useEffect` whose dependency array is
`[projectId, project, fetchProject]`.  React's effect semantics: the cleanup
of the previous run fires, then the body runs again, whenever any dependency
changes — so the effect re-runs not only when the id changes but also on
every update of the `project` state.  We embed this lifecycle as a
transition system over the events that re-run the effect. -/

/-- One opened `EventSource`.  `serial` distinguishes successive sources so
that "the same subscription object" is expressible. -/
structure Subscription where
  subId : String
  serial : Nat
deriving DecidableEq, Repr

/-- The state of the SSE effect: whether the component is mounted, the
current `projectId`, the `eventSourceRef` (an open source or `none`), and
the serial number for the next source opened. -/
structure SSEState where
  mounted : Bool
  currentId : String
  eventSourceRef : Option Subscription
  nextSerial : Nat
deriving DecidableEq, Repr

/-- The occurrences that run the effect machinery: the initial mount,
a change of the dependency array (a new id, or a `project`/`fetchProject`
identity change with the same id), and unmount. -/
inductive HookEvent
  | mount (id : String)
  | depsChanged (id : String)
  | unmount
deriving DecidableEq, Repr

/-- Cleanup function of the SSE effect (part_003 lines 218-221): close the
event source and clear the ref. -/
def sseCleanup (s : SSEState) : SSEState :=
  { s with eventSourceRef := none }

/-- Body of the SSE effect (part_003 lines 171-179): bail out when the id is
empty (`if (!projectId) return`), close any existing source, then open a new
`EventSource` for the current id and store it in the ref. -/
def sseBody (s : SSEState) : SSEState :=
  if s.currentId = "" then s
  else
    { s with eventSourceRef := some ⟨s.currentId, s.nextSerial⟩
           , nextSerial := s.nextSerial + 1 }

/-- React lifecycle for the SSE effect: mounting runs the body; a dependency
change runs the previous cleanup and then the body with the new id;
unmounting runs the cleanup. -/
def sseStep (s : SSEState) (e : HookEvent) : SSEState :=
  match e with
  | .mount i => if s.mounted then s else sseBody { s with mounted := true, currentId := i }
  | .depsChanged i =>
    if s.mounted then sseBody { (sseCleanup s) with currentId := i } else s
  | .unmount => { (sseCleanup s) with mounted := false }

/-- Initial state: not mounted, no open source. -/
def sseInit : SSEState :=
  { mounted := false, currentId := "", eventSourceRef := none, nextSerial := 0 }

/-- Run a trace of lifecycle events from the initial state. -/
def sseRun (tr : List HookEvent) : SSEState :=
  tr.foldl sseStep sseInit

/-- The subscription invariant: while mounted with a nonempty id the ref
holds exactly one open source, opened for the current id; otherwise the ref
is empty. -/
def sseInvariant (s : SSEState) : Bool :=
  if s.mounted && s.currentId != "" then
    match s.eventSourceRef with
    | some sub => sub.subId == s.currentId
    | none => false
  else
    s.eventSourceRef.isNone

/-! ### PodcastList, delete confirmation, editor save, export download -/

/-- What one project card of `PodcastList` renders (PodcastList.tsx lines
94-146). -/
structure ProjectCardView where
  title : String
  descriptionShown : Option String
  badgeClass : String
  counter : Option String
  timeShown : Bool
deriving DecidableEq, Repr

/-- `getStatusBadge` (PodcastList.tsx lines 48-63): the color-coded badge
class for a pipeline state. -/
def getStatusBadge (status : String) : String :=
  if status == "idle" then "bg-muted text-muted-foreground"
  else if status == "generating" then "bg-blue-500/10 text-blue-500 border-blue-500/20"
  else if status == "paused" then "bg-yellow-500/10 text-yellow-500 border-yellow-500/20"
  else if status == "completed" then "bg-green-500/10 text-green-500 border-green-500/20"
  else if status == "error" then "bg-red-500/10 text-red-500 border-red-500/20"
  else "bg-muted text-muted-foreground"

/-- The project card of `PodcastList` (lines 94-146): name always, the
description only when non-empty (`{project.description && ...}`), the badge
from `getStatusBadge`, the `completed / total` counter only when
`pipeline_state !== 'idle' && total_segments > 0` (line 134), and the
relative timestamp always. -/
def renderProjectCard (p : PodcastProject) : ProjectCardView :=
  { title := p.name
  , descriptionShown := if p.description == "" then none else some p.description
  , badgeClass := getStatusBadge p.pipeline_state
  , counter :=
      if p.pipeline_state != "idle" && p.total_segments != 0 then
        some (toString p.completed_count ++ " / " ++ toString p.total_segments)
      else none
  , timeShown := true }

/-- The observable outcome of the delete action: the requests issued and the
resulting local project list. -/
structure DeleteOutcome where
  requests : List Route
  projects : List PodcastProject
deriving Repr

/-- `handleDelete` of `PodcastList` (lines 14-24) combined with
`deleteProject` of `usePodcasts` (usePodcasts.ts lines 35-38): if the
confirmation dialog is declined the handler returns before any request; if
confirmed, the DELETE request is issued and the project is filtered out of
the local list. -/
def handleDelete (confirmed : Bool) (projects : List PodcastProject) (projectId : String) :
    DeleteOutcome :=
  if !confirmed then { requests := [], projects := projects }
  else
    { requests := [⟨"DELETE", "/podcast/projects/" ++ projectId⟩]
    , projects := projects.filter (fun p => p.id != projectId) }

/-- The editor-local state of `PodcastEditor`'s script pane. -/
structure EditorState where
  scriptContent : String
  isEditing : Bool
  saving : Bool
deriving DecidableEq, Repr

/-- The `Textarea` `onChange` of the script editor (PodcastList.tsx editor
pane, lines 349-357): stage the edit locally and mark editing; no request is
made. -/
def editScript (st : EditorState) (newText : String) : EditorState :=
  { st with scriptContent := newText, isEditing := true }

/-- `handleSaveScript` (PodcastList.tsx lines 223-233): if no project is
selected it returns; otherwise it sets `saving`, does nothing (the body is
`// TODO: Implement updateProject`), clears `isEditing` and clears `saving`.
It issues no request, so the server-side persisted script is returned
unchanged. -/
def handleSaveScript (hasProject : Bool) (st : EditorState) (persistedScript : String) :
    List Route × EditorState × String :=
  if !hasProject then ([], st, persistedScript)
  else ([], { st with isEditing := false, saving := false }, persistedScript)

/-- The binary returned by the export endpoint: its actual encoding and its
bytes (opaque here). -/
structure ExportResponse where
  audioFormat : String
  payload : List Nat
deriving DecidableEq, Repr

/-- The download the browser is asked to perform. -/
structure DownloadAction where
  filename : String
  payload : List Nat
deriving DecidableEq, Repr

/-- `exportAudio` of `usePodcastProject` (usePodcasts.ts lines 121-137 and
part_003 lines 151-167): POST to the export endpoint, then save the returned
blob under the fixed name `` podcast-<projectId>.wav `` (`link.download`),
whatever the response actually contains. -/
def exportAudio (projectId : String) (resp : ExportResponse) : Route × DownloadAction :=
  (⟨"POST", "/podcast/projects/" ++ projectId ++ "/export"⟩,
   { filename := "podcast-" ++ projectId ++ ".wav", payload := resp.payload })

/-! ### The bootstrap script `setup_linux.sh`

The script runs under `set -e` (line 4): the first failing simple command
aborts the run with a non-zero status.  We embed it as its ordered list of
fallible steps over an environment describing which underlying operations
succeed; the database-check step (lines 178-208) fails exactly when
`init_db` fails or a required podcast table is missing, and the
data-directories step (lines 218-244) catches every exception and so never
fails. -/

/-- Which underlying operations succeed on this host. -/
structure SetupEnv where
  pythonOk : Bool
  venvOk : Bool
  pipUpgradeOk : Bool
  depsInstallOk : Bool
  cudaProbeOk : Bool
  importsOk : Bool
  initDbOk : Bool
  tablesAfterInit : List String
deriving DecidableEq, Repr

/-- The fallible steps of `setup_linux.sh`, in script order. -/
inductive SetupStep
  | checkPython
  | createVenv
  | upgradePip
  | installDeps
  | cudaProbe
  | verifyImports
  | dbCheck
  | dataDirs
deriving DecidableEq, Repr

/-- The tables the database check requires (setup_linux.sh line 193). -/
def requiredTables : List String :=
  ["podcast_projects", "podcast_segments"]

/-- Whether a step succeeds in a given environment.  `dbCheck` runs
`init_db` and then asserts every required table is present, calling
`sys.exit(1)` otherwise; `dataDirs` never fails. -/
def stepSucceeds (env : SetupEnv) : SetupStep → Bool
  | .checkPython => env.pythonOk
  | .createVenv => env.venvOk
  | .upgradePip => env.pipUpgradeOk
  | .installDeps => env.depsInstallOk
  | .cudaProbe => env.cudaProbeOk
  | .verifyImports => env.importsOk
  | .dbCheck => env.initDbOk && requiredTables.all (fun t => env.tablesAfterInit.contains t)
  | .dataDirs => true

/-- The steps of the script in source order. -/
def setupOrder : List SetupStep :=
  [.checkPython, .createVenv, .upgradePip, .installDeps,
   .cudaProbe, .verifyImports, .dbCheck, .dataDirs]

/-- errexit semantics: run the steps in order; the first failing step aborts
with exit status 1 and later steps never run.  Returns the exit status and
the steps that were executed. -/
def runSteps (env : SetupEnv) : List SetupStep → Nat × List SetupStep
  | [] => (0, [])
  | s :: rest =>
    if stepSucceeds env s then
      let r := runSteps env rest
      (r.1, s :: r.2)
    else (1, [s])

/-- Run the whole bootstrap script. -/
def runSetup (env : SetupEnv) : Nat × List SetupStep :=
  runSteps env setupOrder

/-! ### Concrete inputs used by counterexamples and witnesses -/

/-- A host on which everything works except the dependency install. -/
def envDepsFail : SetupEnv :=
  { pythonOk := true, venvOk := true, pipUpgradeOk := true
  , depsInstallOk := false, cudaProbeOk := true, importsOk := true
  , initDbOk := true, tablesAfterInit := [] }

/-- A generating project whose script parsed to zero segments. -/
def projNoSegments : PodcastProject :=
  { id := "p1", name := "Empty", description := "", script_content := ""
  , pipeline_state := "generating", current_segment_index := 0
  , completed_count := 0, failed_count := 0, total_segments := 0
  , segments := [], updated_at := "2025-01-01" }

/-- A generating project with 1 of 3 segments completed. -/
def projOneOfThree : PodcastProject :=
  { id := "p2", name := "Show", description := "d", script_content := ""
  , pipeline_state := "generating", current_segment_index := 1
  , completed_count := 1, failed_count := 0, total_segments := 3
  , segments := [], updated_at := "t" }

end Voicebox

namespace Voicebox

/-! ## Theorems -/

/-- C1 (counterexample): the HTTP surface contains the route GET `/profiles`
but the generated client has no callable for it, so the client does not
mirror the surface one-to-one as claimed. -/
theorem C1_profiles_route_missing_from_client :
    Route.mk "GET" "/profiles" ∈ httpSurfaceRoutes
    ∧ Route.mk "GET" "/profiles" ∉ defaultServiceRoutes := by
  decide

/-- C1 (amended): the generated client mirrors one-to-one exactly the
non-profile part of the HTTP surface — GET `/`, POST `/shutdown`,
GET `/health`, GET `/server/mode` and the ten `/podcast/...` routes; its
callables are pairwise distinct and list precisely those routes, while the
four voice-profile routes have no client callable. -/
theorem C1_client_mirrors_core_routes :
    defaultServiceRoutes.Nodup
    ∧ httpSurfaceRoutes.filter (fun r => !profileRoutes.contains r) = defaultServiceRoutes
    ∧ profileRoutes.all (fun r => !defaultServiceRoutes.contains r) = true := by
  refine ⟨by decide, by decide, by decide⟩

/-- Each body line contributes one parsed segment exactly when it is a text
line or a marker line. -/
theorem parseLine_contribution (l : String) :
    (if (parseLine l).isSome then 1 else 0)
      = (if isTextSegLine l then 1 else 0) + (if isMarkerSegLine l then 1 else 0) := by
  cases h : parseLine l with
  | none => simp [isTextSegLine, isMarkerSegLine, h]
  | some s => cases hk : s.segment_type <;> simp [isTextSegLine, isMarkerSegLine, h, hk]

/-- Parsing a body produces one segment per text line plus one per marker
line. -/
theorem parseScriptBody_length (lines : List String) :
    (parseScriptBody lines).length
      = lines.countP isTextSegLine + lines.countP isMarkerSegLine := by
  induction lines with
  | nil => rfl
  | cons l ls ih =>
    have hsum : (parseScriptBody (l :: ls)).length
        = (if (parseLine l).isSome then 1 else 0) + (parseScriptBody ls).length := by
      cases h : parseLine l with
      | none => simp [parseScriptBody, List.filterMap_cons, h]
      | some s =>
        simp [parseScriptBody, List.filterMap_cons, h]
        omega
    rw [hsum, parseLine_contribution, ih, List.countP_cons, List.countP_cons]
    cases isTextSegLine l <;> cases isMarkerSegLine l <;> simp <;> omega

/-- The StoryItem recorded for a segment keeps the segment's position. -/
theorem itemOfSegment_order (i : Nat) (s : PodcastSegment) :
    (itemOfSegment i s).order = i := by
  obtain ⟨sp, tx, ty, mv⟩ := s
  cases ty <;> rfl

/-- A full run produces items whose orders are exactly 0,...,n-1. -/
theorem runPipelineItems_orders (segs : List PodcastSegment) :
    (runPipelineItems segs).map StoryItem.order = List.range segs.length := by
  have h : ∀ l : List (Nat × PodcastSegment),
      (l.map (fun p => itemOfSegment p.1 p.2)).map StoryItem.order = l.map Prod.fst := by
    intro l
    induction l with
    | nil => rfl
    | cons a l ih => simp [itemOfSegment_order, ih]
  rw [runPipelineItems, h, List.enum_map_fst]

/-- The outer-join retrieval returns every StoryItem, in order. -/
theorem retrieveTimelineOuter_fst (items : List StoryItem) (gens : List Generation) :
    (retrieveTimelineOuter items gens).map Prod.fst = items := by
  induction items with
  | nil => rfl
  | cons a l ih => exact congrArg (List.cons a) ih

/-- C2: a script body with N text lines and M marker lines parses to exactly
N+M ordered segments; a full successful run records one StoryItem per
segment with contiguous orders 0..N+M-1, and the outer-join retrieval used
at assembly/export returns all N+M items — marker items (null generation
reference) included, since no item is dropped. -/
theorem C2_marker_preservation (lines : List String) (gens : List Generation) :
    (parseScriptBody lines).length
        = lines.countP isTextSegLine + lines.countP isMarkerSegLine
    ∧ (runPipelineItems (parseScriptBody lines)).map StoryItem.order
        = List.range (lines.countP isTextSegLine + lines.countP isMarkerSegLine)
    ∧ (retrieveTimelineOuter (runPipelineItems (parseScriptBody lines)) gens).map Prod.fst
        = runPipelineItems (parseScriptBody lines) := by
  refine ⟨parseScriptBody_length lines, ?_, retrieveTimelineOuter_fst _ _⟩
  rw [runPipelineItems_orders, parseScriptBody_length]

/-- One lifecycle transition preserves the subscription invariant. -/
theorem sseStep_invariant (s : SSEState) (e : HookEvent)
    (h : sseInvariant s = true) : sseInvariant (sseStep s e) = true := by
  obtain ⟨m, cid, ref, ser⟩ := s
  cases e with
  | mount i =>
    cases m with
    | true => simpa [sseStep] using h
    | false =>
      have href : ref = none := by
        simpa [sseInvariant, Option.isNone_iff_eq_none] using h
      subst href
      by_cases hi : i = "" <;> simp [sseStep, sseBody, sseInvariant, hi]
  | depsChanged i =>
    cases m with
    | false => simpa [sseStep] using h
    | true =>
      by_cases hi : i = "" <;> simp [sseStep, sseBody, sseCleanup, sseInvariant, hi]
  | unmount => simp [sseStep, sseCleanup, sseInvariant]

/-- The invariant holds along every run continued from an invariant state. -/
theorem sseRun_invariant_aux (tr : List HookEvent) :
    ∀ s : SSEState, sseInvariant s = true → sseInvariant (tr.foldl sseStep s) = true := by
  induction tr with
  | nil => intro s h; simpa using h
  | cons e tr ih => intro s h; exact ih _ (sseStep_invariant s e h)

/-- C3 (amended): along every lifecycle trace of the SSE effect, while the
hook is mounted with a nonempty project id it holds exactly one open
progress-stream subscription and that subscription was opened for the
current id (so none outlives its id); when unmounted, or when the id is
empty, no subscription is open. -/
theorem C3_subscription_invariant (tr : List HookEvent) :
    sseInvariant (sseRun tr) = true :=
  sseRun_invariant_aux tr sseInit (by decide)

/-- C3 (counterexample): a dependency change caused by a project-state
update (`project` is in the effect's dependency array) with the SAME id and
no unmount closes the source opened at mount (serial 0) and replaces it with
a fresh one (serial 1): no single subscription spans the lifetime of the id,
and teardown is not restricted to id change or unmount. -/
theorem C3_churn_counterexample :
    (sseRun [.mount "p1"]).eventSourceRef = some ⟨"p1", 0⟩
    ∧ (sseRun [.mount "p1", .depsChanged "p1"]).eventSourceRef = some ⟨"p1", 1⟩
    ∧ (sseRun [.mount "p1", .depsChanged "p1"]).currentId = "p1"
    ∧ (sseRun [.mount "p1", .depsChanged "p1"]).mounted = true
    ∧ Subscription.mk "p1" 0 ≠ Subscription.mk "p1" 1 := by
  refine ⟨by decide, by decide, by decide, by decide, by decide⟩

/-- C4: the SSE handler maps event kinds exactly as claimed — `progress`
(with a payload, on a loaded project) merges the counters/state fields and
does not re-fetch; `segment_complete` and `segment_failed` leave the state
untouched and re-fetch the full project; `complete` clears the generating
flag and re-fetches; `error` clears the generating flag, records the message
and re-fetches. -/
theorem C4_stream_event_mapping :
    (∀ (p : PodcastProject) (gen : Bool) (err : Option String) (d : ProgressData),
      handleProgressMessage ⟨some p, gen, err⟩ (.progress (some d))
        = (⟨some (applyProgressEvent p d), gen, err⟩, false))
    ∧ (∀ (s : HookState) (d : Option ProgressData),
      handleProgressMessage s (.segment_complete d) = (s, true))
    ∧ (∀ (s : HookState) (d : Option ProgressData),
      handleProgressMessage s (.segment_failed d) = (s, true))
    ∧ (∀ (s : HookState) (d : Option ProgressData),
      handleProgressMessage s (.complete d) = ({ s with isGenerating := false }, true))
    ∧ (∀ (s : HookState) (m : Option String),
      (handleProgressMessage s (.error m)).2 = true
        ∧ (handleProgressMessage s (.error m)).1.isGenerating = false) :=
  ⟨fun _ _ _ _ => rfl, fun _ _ => rfl, fun _ _ => rfl, fun _ _ => rfl,
   fun _ _ => ⟨rfl, rfl⟩⟩

/-- Under errexit, the exit status is zero exactly when every step in the
list succeeds. -/
theorem runSteps_exit_zero (env : SetupEnv) (steps : List SetupStep) :
    (runSteps env steps).1 = 0 ↔ steps.all (stepSucceeds env) = true := by
  induction steps with
  | nil => simp [runSteps]
  | cons s rest ih => cases h : stepSucceeds env s <;> simp [runSteps, h, ih]

/-- C5: under errexit the bootstrap script exits 0 exactly when every step
succeeds; a failed dependency install aborts with status 1 and no later step
(CUDA probe, import check, database check, directory check) ever runs; and a
zero exit status guarantees the podcast tables were present after the
database was initialized. -/
theorem C5_setup_failfast (env : SetupEnv) :
    ((runSetup env).1 = 0 ↔ setupOrder.all (stepSucceeds env) = true)
    ∧ (env.depsInstallOk = false →
        (runSetup env).1 = 1
        ∧ SetupStep.cudaProbe ∉ (runSetup env).2
        ∧ SetupStep.verifyImports ∉ (runSetup env).2
        ∧ SetupStep.dbCheck ∉ (runSetup env).2
        ∧ SetupStep.dataDirs ∉ (runSetup env).2)
    ∧ ((runSetup env).1 = 0 →
        "podcast_projects" ∈ env.tablesAfterInit
        ∧ "podcast_segments" ∈ env.tablesAfterInit) := by
  obtain ⟨p, v, u, dep, cu, im, db, tabs⟩ := env
  refine ⟨runSteps_exit_zero _ _, ?_, ?_⟩
  · intro hdep
    subst hdep
    cases p <;> cases v <;> cases u <;>
      simp [runSetup, setupOrder, runSteps, stepSucceeds]
  · intro h0
    have hall := (runSteps_exit_zero _ setupOrder).mp h0
    simp [setupOrder, stepSucceeds, requiredTables] at hall
    exact ⟨hall.2.2.2.2.2.2.2.1, hall.2.2.2.2.2.2.2.2⟩

/-- C5 witness: with every operation succeeding except the dependency
install, the script exits 1 and the database check never runs. -/
theorem C5_setup_failfast_witness :
    (runSetup envDepsFail).1 = 1 ∧ SetupStep.dbCheck ∉ (runSetup envDepsFail).2 := by
  have h := (C5_setup_failfast envDepsFail).2.1 rfl
  exact ⟨h.1, h.2.2.2.1⟩

/-- C6 (counterexample): a generating project with zero segments renders no
completed/total counter although its pipeline state is not `idle`. -/
theorem C6_counter_hidden_for_zero_segments :
    (renderProjectCard projNoSegments).counter = none
    ∧ projNoSegments.pipeline_state ≠ "idle" := by
  refine ⟨by decide, by decide⟩

/-- C6 (amended): for every project whose pipeline state is not `idle` AND
whose total segment count is positive, the rendered card shows the
completed/total counter alongside the name, the color-coded status badge and
the relative timestamp. -/
theorem C6_counter_shown_when_nonidle_nonempty (p : PodcastProject)
    (hstate : p.pipeline_state ≠ "idle") (htotal : p.total_segments ≠ 0) :
    (renderProjectCard p).counter
        = some (toString p.completed_count ++ " / " ++ toString p.total_segments)
    ∧ (renderProjectCard p).title = p.name
    ∧ (renderProjectCard p).badgeClass = getStatusBadge p.pipeline_state
    ∧ (renderProjectCard p).timeShown = true := by
  refine ⟨?_, rfl, rfl, rfl⟩
  simp [renderProjectCard, hstate, htotal]

/-- C6 witness: a generating project with 1 of 3 segments completed shows
the counter `1 / 3`. -/
theorem C6_counter_witness :
    (renderProjectCard projOneOfThree).counter = some "1 / 3" := by
  have h := C6_counter_shown_when_nonidle_nonempty projOneOfThree (by decide) (by decide)
  exact h.1.trans (by decide)

/-- Filtering out a project id leaves no project with that id. -/
theorem filter_ne_then_eq (l : List PodcastProject) (pid : String) :
    (l.filter (fun p => p.id != pid)).filter (fun p => p.id == pid) = [] := by
  induction l with
  | nil => rfl
  | cons a l ih => by_cases h : a.id = pid <;> simp [h, ih]

/-- C7: a declined confirmation sends no request and leaves the local
project list unchanged; a confirmed delete issues exactly the DELETE request
for that project and removes it (and only it) from the local list. -/
theorem C7_delete_requires_confirmation (projects : List PodcastProject) (pid : String) :
    (handleDelete false projects pid).requests = []
    ∧ (handleDelete false projects pid).projects = projects
    ∧ (handleDelete true projects pid).requests
        = [⟨"DELETE", "/podcast/projects/" ++ pid⟩]
    ∧ (handleDelete true projects pid).projects = projects.filter (fun p => p.id != pid)
    ∧ ((handleDelete true projects pid).projects.filter (fun p => p.id == pid)) = [] :=
  ⟨rfl, rfl, rfl, rfl, filter_ne_then_eq projects pid⟩

/-- C8: script edits are staged locally (the textarea change updates only
the local editor state) and the Save action is a no-op towards the server:
it issues no request and the persisted script is unchanged. -/
theorem C8_save_is_noop (b : Bool) (st : EditorState) (server : String) (newText : String) :
    (handleSaveScript b st server).1 = []
    ∧ (handleSaveScript b st server).2.2 = server
    ∧ (handleSaveScript b (editScript st newText) server).1 = []
    ∧ (editScript st newText).scriptContent = newText
    ∧ (editScript st newText).isEditing = true := by
  cases b <;> exact ⟨rfl, rfl, rfl, rfl, rfl⟩

/-- C9: a `progress` event rewrites exactly the five counter/state fields
from the payload and leaves every other field of the project — including the
segments list — unchanged. -/
theorem C9_progress_event_frame (p : PodcastProject) (d : ProgressData) :
    (applyProgressEvent p d).pipeline_state = d.pipeline_state
    ∧ (applyProgressEvent p d).current_segment_index = d.current_segment_index
    ∧ (applyProgressEvent p d).completed_count = d.completed_count
    ∧ (applyProgressEvent p d).failed_count = d.failed_count
    ∧ (applyProgressEvent p d).total_segments = d.total_segments
    ∧ (applyProgressEvent p d).segments = p.segments
    ∧ (applyProgressEvent p d).id = p.id
    ∧ (applyProgressEvent p d).name = p.name
    ∧ (applyProgressEvent p d).description = p.description
    ∧ (applyProgressEvent p d).script_content = p.script_content
    ∧ (applyProgressEvent p d).updated_at = p.updated_at :=
  ⟨rfl, rfl, rfl, rfl, rfl, rfl, rfl, rfl, rfl, rfl, rfl⟩

/-- C10: exporting always saves the returned binary under the fixed name
`podcast-<projectId>.wav`, independent of what encoding the response
actually carries, after POSTing to the export endpoint. -/
theorem C10_export_filename_fixed (pid : String) (r r2 : ExportResponse) :
    (exportAudio pid r).2.filename = "podcast-" ++ pid ++ ".wav"
    ∧ (exportAudio pid r).2.filename = (exportAudio pid r2).2.filename
    ∧ (exportAudio pid r).1 = ⟨"POST", "/podcast/projects/" ++ pid ++ "/export"⟩ :=
  ⟨rfl, rfl, rfl⟩

end Voicebox
